import Mathlib

/-!
Verification of the pairing/relay core of `src/bot.py` (an anonymous 1:1
chat-pairing Telegram bot).

The in-memory structures of the bot are

  waiting = deque()       -- queue of user ids waiting
  partners = {}           -- partners[user_id] = partner_id
  last_partner = {}       -- last_partner[user_id] = last_partner_id

which we model as a `List Nat` (head = front of the deque) and association
lists over `Nat` keys.  Python `dict` assignment, deletion, lookup and
membership are modelled by `dset`, `ddel`, `dget` and `(dget _ _).isSome`.
The SQLite tables `profiles` and `forwards` are modelled by an explicit `DB`
structure; the external Telegram API is modelled by returning the list of
outbound calls a handler issues, with the platform's responses (the id a
successful send returns, or failure) supplied as parameters.
-/

/-- Python dict lookup `d.get(k)`: the value of the first (and, as maintained
by `dset`/`ddel`, only) binding of key `k`, or `none`. -/
def dget {α : Type} (d : List (Nat × α)) (k : Nat) : Option α :=
  (d.find? (fun p => p.1 == k)).map (fun p => p.2)

/-- Python dict deletion `del d[k]` (a no-op when `k` is absent, matching the
`try: del ... except KeyError: pass` pattern in the source). -/
def ddel {α : Type} (d : List (Nat × α)) (k : Nat) : List (Nat × α) :=
  d.filter (fun p => p.1 != k)

/-- Python dict assignment `d[k] = v`: bind `k` to `v`, removing any previous
binding of `k`. -/
def dset {α : Type} (d : List (Nat × α)) (k : Nat) (v : α) : List (Nat × α) :=
  (k, v) :: ddel d k

theorem find?_filter_ne {α : Type} (d : List (Nat × α)) (k k' : Nat) (h : k' ≠ k) :
    (d.filter (fun p => p.1 != k)).find? (fun p => p.1 == k') =
      d.find? (fun p => p.1 == k') := by
  induction d with
  | nil => rfl
  | cons hd tl ih =>
    by_cases hk : hd.1 = k
    · have h1 : (hd.1 != k) = false := by simp [hk]
      have h2 : (hd.1 == k') = false := by simp [hk]; exact fun he => absurd he.symm h
      simp [List.filter_cons, List.find?_cons, h1, h2, ih]
    · have h1 : (hd.1 != k) = true := by simp [hk]
      by_cases hk' : hd.1 = k'
      · simp [List.filter_cons, List.find?_cons, h1, hk', h]
      · have h2 : (hd.1 == k') = false := by simp [hk']
        simp [List.filter_cons, List.find?_cons, h1, h2, ih]

theorem dget_ddel {α : Type} (d : List (Nat × α)) (k k' : Nat) :
    dget (ddel d k) k' = if k' = k then none else dget d k' := by
  by_cases h : k' = k
  · subst h
    simp only [dget, ddel, if_pos rfl]
    induction d with
    | nil => rfl
    | cons hd tl ih =>
      by_cases hk : hd.1 = k'
      · have h1 : (hd.1 != k') = false := by simp [hk]
        simp [List.filter_cons, h1, ih]
      · have h1 : (hd.1 != k') = true := by simp [hk]
        have h2 : (hd.1 == k') = false := by simp [hk]
        simp [List.filter_cons, List.find?_cons, h1, h2, ih]
  · simp only [dget, ddel, if_neg h]
    rw [find?_filter_ne d k k' h]

theorem dget_dset {α : Type} (d : List (Nat × α)) (k k' : Nat) (v : α) :
    dget (dset d k v) k' = if k' = k then some v else dget d k' := by
  by_cases h : k' = k
  · subst h
    simp [dget, dset, List.find?_cons]
  · have h2 : (k == k') = false := by simp; exact fun he => absurd he.symm h
    simp only [dget, dset, List.find?_cons, h2, if_neg h]
    have := dget_ddel d k k'
    simp only [dget, if_neg h] at this
    exact this

/-- The in-memory state of the bot: the FIFO `waiting` deque (head first) and
the `partners` / `last_partner` dicts. -/
structure BotState where
  waiting : List Nat
  partners : List (Nat × Nat)
  last_partner : List (Nat × Nat)
deriving DecidableEq, Repr

/-- The empty initial state of a freshly started process. -/
def initState : BotState :=
  { waiting := [], partners := [], last_partner := [] }

/-- The user-visible outcome of `chat_cmd` (which reply text is sent). -/
inductive ChatResult where
  /-- "Please use this bot in private chat (one-to-one)." -/
  | notPrivateChat : ChatResult
  /-- "⚠ You are already in a chat. Use /exit to leave." -/
  | alreadyPaired : ChatResult
  /-- "⏳ You are already waiting..." -/
  | alreadyWaiting : ChatResult
  /-- "✅ Partner found! Say hi 👋" is sent to both the caller and `partner`. -/
  | paired (partner : Nat) : ChatResult
  /-- "⏳ Waiting for a partner..." -/
  | waitingReply : ChatResult
deriving DecidableEq, Repr

/-- The `/chat` handler `chat_cmd` of `src/bot.py` (lines 184-214).
`isPrivate` is the `update.effective_chat.type != "private"` guard.  The
Python `if user in partners` membership test together with the later value
read is rendered as a single `dget`; `waiting.popleft()` is the head of the
list, and the defensive guard `if partner == user` re-queues the popped head
with `appendleft`, leaving the deque as it was. -/
def chat_cmd (s : BotState) (user : Nat) (isPrivate : Bool) : BotState × ChatResult :=
  if !isPrivate then (s, .notPrivateChat)
  else if (dget s.partners user).isSome then (s, .alreadyPaired)
  else if user ∈ s.waiting then (s, .alreadyWaiting)
  else
    match s.waiting with
    | partner :: rest =>
      if partner = user then
        ({ s with waiting := partner :: rest }, .waitingReply)
      else
        ({ waiting := rest,
           partners := dset (dset s.partners user partner) partner user,
           last_partner := dset (dset s.last_partner user partner) partner user },
         .paired partner)
    | [] => ({ s with waiting := s.waiting ++ [user] }, .waitingReply)

/-- The user-visible outcome of `exit_cmd`. -/
inductive ExitResult where
  /-- "⛔ You left the queue." -/
  | leftQueue : ExitResult
  /-- "❌ You left the chat."; `partner` is additionally notified
  "⚠ Your partner left the chat." when `partner` is truthy. -/
  | leftChat (partner : Nat) : ExitResult
  /-- "You are not in a chat or queue." -/
  | notInChatOrQueue : ExitResult
deriving DecidableEq, Repr

/-- The `/exit` handler `exit_cmd` of `src/bot.py` (lines 216-244).
`waiting.remove(user)` removes the first occurrence; `del partners[partner]`
runs before `del partners[user]`, each swallowing `KeyError` (our `ddel` is
already total); `last_partner[user] = partner` is recorded. -/
def exit_cmd (s : BotState) (user : Nat) : BotState × ExitResult :=
  if user ∈ s.waiting then
    ({ s with waiting := s.waiting.erase user }, .leftQueue)
  else
    match dget s.partners user with
    | some partner =>
      ({ s with
         partners := ddel (ddel s.partners partner) user,
         last_partner := dset s.last_partner user partner },
       .leftChat partner)
    | none => (s, .notInChatOrQueue)

/-- A row of the `profiles` table.  `is_premium` is stored as the INTEGER
`0`/`1` and read back through `bool(...)`, so we keep it as a `Bool`. -/
structure Profile where
  age : Option Int
  gender : Option String
  is_premium : Bool
  updated_at : Option String
deriving DecidableEq, Repr

/-- A row of the `forwards` table (`id` is the AUTOINCREMENT primary key). -/
structure ForwardRecord where
  id : Nat
  user_id : Nat
  partner_id : Nat
  orig_msg_id : Nat
  fwd_msg_id : Nat
  content_type : String
deriving DecidableEq, Repr

/-- The persisted SQLite database: the `profiles` table keyed by `user_id`
and the `forwards` table in insertion order, with `next_forward_id` the next
AUTOINCREMENT value (every stored `id` is below it and ids increase along
the list). -/
structure DB where
  profiles : List (Nat × Profile)
  forwards : List ForwardRecord
  next_forward_id : Nat
deriving DecidableEq, Repr

/-- A freshly initialised database (`init_db` creates empty tables;
AUTOINCREMENT starts at 1). -/
def emptyDB : DB :=
  { profiles := [], forwards := [], next_forward_id := 1 }

/-- `db_set_profile` of `src/bot.py` (lines 90-109): if a row for `user_id`
exists, each provided field is updated together with `updated_at`; otherwise
a fresh row is inserted with the provided values, `is_premium` defaulting to
false.  `ts` stands for the `datetime.utcnow().isoformat()` stamp. -/
def db_set_profile (db : DB) (user_id : Nat) (age : Option Int)
    (gender : Option String) (is_premium : Option Bool) (ts : String) : DB :=
  match dget db.profiles user_id with
  | some row =>
    let row := match age with
      | some a => { row with age := some a, updated_at := some ts }
      | none => row
    let row := match gender with
      | some g => { row with gender := some g, updated_at := some ts }
      | none => row
    let row := match is_premium with
      | some b => { row with is_premium := b, updated_at := some ts }
      | none => row
    { db with profiles := dset db.profiles user_id row }
  | none =>
    let row : Profile :=
      { age := age, gender := gender,
        is_premium := is_premium.getD false, updated_at := some ts }
    { db with profiles := dset db.profiles user_id row }

/-- `db_get_profile` of `src/bot.py` (lines 111-120): the stored row, or the
defaults `age=None, gender=None, is_premium=False, updated_at=None` when no
row exists. -/
def db_get_profile (db : DB) (user_id : Nat) : Profile :=
  match dget db.profiles user_id with
  | some row => row
  | none => { age := none, gender := none, is_premium := false, updated_at := none }

/-- `db_add_forward` of `src/bot.py` (lines 132-140): INSERT a new row, the
AUTOINCREMENT id advancing. -/
def db_add_forward (db : DB) (user_id partner_id orig_msg_id fwd_msg_id : Nat)
    (content_type : String) : DB :=
  { db with
    forwards := db.forwards ++
      [{ id := db.next_forward_id, user_id := user_id, partner_id := partner_id,
         orig_msg_id := orig_msg_id, fwd_msg_id := fwd_msg_id,
         content_type := content_type }],
    next_forward_id := db.next_forward_id + 1 }

/-- `db_get_last_forward` of `src/bot.py` (lines 142-149):
`SELECT ... WHERE user_id=? ORDER BY id DESC LIMIT 1`.  Rows are stored in
insertion order with increasing ids, so the row of maximal id among the
sender's rows is the last matching row of the list. -/
def db_get_last_forward (db : DB) (user_id : Nat) : Option ForwardRecord :=
  (db.forwards.filter (fun r => r.user_id == user_id)).getLast?

/-- `db_delete_forward_record` of `src/bot.py` (lines 151-157): DELETE the
row with the given primary key. -/
def db_delete_forward_record (db : DB) (record_id : Nat) : DB :=
  { db with forwards := db.forwards.filter (fun r => r.id != record_id) }

/-- An inbound content unit, as classified by `forward_messages`:
`update.message.text`, `.photo` (best-resolution `file_id` plus optional
caption), `.sticker`, or anything else. -/
inductive Content where
  | text (body : String) : Content
  | photo (fileId : Nat) (caption : Option String) : Content
  | sticker (fileId : Nat) : Content
  | other : Content
deriving DecidableEq, Repr

/-- The `content_type` string recorded with a forward of each kind. -/
def contentKind : Content → String
  | .text _ => "text"
  | .photo _ _ => "photo"
  | .sticker _ => "sticker"
  | .other => "other"

/-- An outbound call to the external Telegram API. -/
inductive Outbound where
  | sendMessage (chatId : Nat) (body : String) : Outbound
  | sendPhoto (chatId : Nat) (fileId : Nat) (caption : Option String) : Outbound
  | sendSticker (chatId : Nat) (fileId : Nat) : Outbound
  | deleteMessage (chatId : Nat) (msgId : Nat) : Outbound
deriving DecidableEq, Repr

/-- The single outbound send `forward_messages` issues to `partner` for a
given content unit: text and photos and stickers are re-sent as such, and
anything unrecognized falls back to the text "📨 (Message forwarded)". -/
def relayOutbound (partner : Nat) : Content → Outbound
  | .text body => .sendMessage partner body
  | .photo fileId caption => .sendPhoto partner fileId caption
  | .sticker fileId => .sendSticker partner fileId
  | .other => .sendMessage partner "📨 (Message forwarded)"

/-- The relay handler `forward_messages` of `src/bot.py` (lines 246-270).
Returns the updated database, the outbound API calls issued, and the reply
sent to the sender (always `none`: the relay never replies to the sender).
The Python `if user not in partners: return` membership test together with
`partner = partners.get(user)` is the match on `dget`; `if not partner:
return` is the falsy guard on `partner = 0`.  `sendResult` models the
external send inside the `try`: `some fwdId` is `sent.message_id` of a
successful send, after which `db_add_forward` records the forward; `none`
is a raised exception, which is logged and swallowed, skipping the record. -/
def forward_messages (s : BotState) (db : DB) (user orig_msg_id : Nat)
    (content : Content) (sendResult : Option Nat) :
    DB × List Outbound × Option String :=
  match dget s.partners user with
  | none => (db, [], none)
  | some partner =>
    if partner = 0 then (db, [], none)
    else
      match sendResult with
      | some fwdId =>
        (db_add_forward db user partner orig_msg_id fwdId (contentKind content),
         [relayOutbound partner content], none)
      | none => (db, [relayOutbound partner content], none)

/-- The `/delete_last` handler `delete_last_cmd` of `src/bot.py`
(lines 375-393).  Returns the updated database, the outbound API calls, and
the reply text.  `deleteSucceeds` models whether the external
`bot.delete_message` call succeeds; the ForwardRecord is removed from the
`forwards` table in either case. -/
def delete_last_cmd (db : DB) (user : Nat) (deleteSucceeds : Bool) :
    DB × List Outbound × String :=
  match db_get_last_forward db user with
  | none => (db, [], "No forwarded messages found to delete.")
  | some row =>
    if deleteSucceeds then
      (db_delete_forward_record db row.id,
       [.deleteMessage row.partner_id row.fwd_msg_id],
       "✅ Your last forwarded message has been deleted.")
    else
      (db_delete_forward_record db row.id,
       [.deleteMessage row.partner_id row.fwd_msg_id],
       "Could not delete the forwarded message (maybe already deleted).")

/-- One serial pairing-engine operation: a `/chat` or `/exit` command from
an arbitrary user (in an arbitrary chat type). -/
inductive Step : BotState → BotState → Prop where
  | chat (s : BotState) (u : Nat) (p : Bool) : Step s (chat_cmd s u p).1
  | leave (s : BotState) (u : Nat) : Step s (exit_cmd s u).1

/-- States reachable from the empty initial state by a serial sequence of
pairing-engine operations. -/
inductive Reachable : BotState → Prop where
  | init : Reachable initState
  | step {s s' : BotState} : Reachable s → Step s s' → Reachable s'

/-- The pairing-engine invariant: the partner map is symmetric, no waiting
user is a partner-map key, and the waiting queue has no duplicates. -/
def BotInv (s : BotState) : Prop :=
  (∀ a b, dget s.partners a = some b → dget s.partners b = some a) ∧
  (∀ u, u ∈ s.waiting → dget s.partners u = none) ∧
  s.waiting.Nodup

theorem botInv_init : BotInv initState := by
  refine ⟨?_, ?_, ?_⟩ <;> simp [initState, dget]

theorem botInv_chat (s : BotState) (u : Nat) (p : Bool) (h : BotInv s) :
    BotInv (chat_cmd s u p).1 := by
  obtain ⟨hsym, hdisj, hnd⟩ := h
  unfold chat_cmd
  split
  · exact ⟨hsym, hdisj, hnd⟩
  split
  · exact ⟨hsym, hdisj, hnd⟩
  next hpaired =>
  have hgu : dget s.partners u = none := by
    cases hq : dget s.partners u with
    | none => rfl
    | some x => exact absurd (by simp [hq]) hpaired
  split
  · exact ⟨hsym, hdisj, hnd⟩
  next hwait =>
  split
  next partner rest hw =>
    split
    next heq =>
      exact ⟨hsym, by rw [← hw]; exact hdisj, by rw [← hw]; exact hnd⟩
    next hne =>
      have hqmem : partner ∈ s.waiting := by rw [hw]; exact List.mem_cons_self _ _
      have hgq : dget s.partners partner = none := hdisj partner hqmem
      have hund : u ≠ partner := fun he => hne he.symm
      refine ⟨?_, ?_, ?_⟩
      · intro a b hab
        simp only [dget_dset] at hab ⊢
        by_cases hap : a = partner
        · subst hap
          simp only [if_pos rfl] at hab
          obtain rfl : u = b := Option.some.inj hab
          simp [hund]
        · by_cases hau : a = u
          · subst hau
            simp only [if_neg hap, if_pos rfl] at hab
            obtain rfl : partner = b := Option.some.inj hab
            simp
          · simp only [if_neg hap, if_neg hau] at hab
            have hbq : b ≠ partner := by
              intro hbe
              rw [hbe] at hab
              have hcontra := hsym a partner hab
              rw [hgq] at hcontra
              exact Option.noConfusion hcontra
            have hbu : b ≠ u := by
              intro hbe
              rw [hbe] at hab
              have hcontra := hsym a u hab
              rw [hgu] at hcontra
              exact Option.noConfusion hcontra
            simp only [if_neg hbq, if_neg hbu]
            exact hsym a b hab
      · intro v hv
        have hvw : v ∈ s.waiting := by rw [hw]; exact List.mem_cons_of_mem _ hv
        have hvq : v ≠ partner := by
          intro he
          have hnr : partner ∉ rest := by
            rw [hw] at hnd
            exact (List.nodup_cons.mp hnd).1
          exact hnr (he ▸ hv)
        have hvu : v ≠ u := fun he => hwait (he ▸ hvw)
        simp only [dget_dset, if_neg hvq, if_neg hvu]
        exact hdisj v hvw
      · rw [hw] at hnd
        exact (List.nodup_cons.mp hnd).2
  next hw =>
    refine ⟨hsym, ?_, ?_⟩
    · intro v hv
      rcases List.mem_append.mp hv with hv | hv
      · exact hdisj v hv
      · obtain rfl : v = u := by simpa using hv
        exact hgu
    · rw [hw]
      simp

theorem botInv_exit (s : BotState) (u : Nat) (h : BotInv s) :
    BotInv (exit_cmd s u).1 := by
  obtain ⟨hsym, hdisj, hnd⟩ := h
  unfold exit_cmd
  split
  · refine ⟨hsym, ?_, ?_⟩
    · intro v hv
      exact hdisj v (List.mem_of_mem_erase hv)
    · exact List.Nodup.erase u hnd
  next hwait =>
  split
  next partner hgu =>
    have hgq : dget s.partners partner = some u := hsym u partner hgu
    refine ⟨?_, ?_, hnd⟩
    · intro a b hab
      simp only [dget_ddel] at hab ⊢
      by_cases hau : a = u
      · simp [hau] at hab
      · by_cases haq : a = partner
        · simp [haq] at hab
        · simp only [if_neg hau, if_neg haq] at hab
          have hbu : b ≠ u := by
            intro he
            rw [he] at hab
            have hcontra := hsym a u hab
            rw [hgu] at hcontra
            exact haq (Option.some.inj hcontra).symm
          have hbq : b ≠ partner := by
            intro he
            rw [he] at hab
            have hcontra := hsym a partner hab
            rw [hgq] at hcontra
            exact hau (Option.some.inj hcontra).symm
          simp only [if_neg hbu, if_neg hbq]
          exact hsym a b hab
    · intro v hv
      have hvn := hdisj v hv
      simp only [dget_ddel]
      split
      · rfl
      split
      · rfl
      exact hvn
  next =>
    exact ⟨hsym, hdisj, hnd⟩

theorem reachable_inv {s : BotState} (h : Reachable s) : BotInv s := by
  induction h with
  | init => exact botInv_init
  | step _ hs ih =>
    cases hs with
    | chat u p => exact botInv_chat _ u p ih
    | leave u => exact botInv_exit _ u ih

/-- The state after user 1 issues `/chat` in the empty initial state: user 1
is waiting alone. -/
def stateWaiting : BotState := (chat_cmd initState 1 true).1

/-- The state after user 1 and then user 2 issue `/chat` from the empty
initial state: users 1 and 2 are paired. -/
def statePaired : BotState := (chat_cmd stateWaiting 2 true).1

theorem reachable_stateWaiting : Reachable stateWaiting :=
  Reachable.step Reachable.init (Step.chat initState 1 true)

theorem reachable_statePaired : Reachable statePaired :=
  Reachable.step reachable_stateWaiting (Step.chat stateWaiting 2 true)

/-- C1: in every state reachable by a serial sequence of `chat_cmd`
(requestPairing) and `exit_cmd` (leave) operations from the empty initial
state, the partner map is symmetric: if `PartnerMap[a] = b` then
`PartnerMap[b] = a`. -/
theorem claim_C1_partner_map_symmetry (s : BotState) (h : Reachable s)
    (a b : Nat) (hab : dget s.partners a = some b) :
    dget s.partners b = some a :=
  (reachable_inv h).1 a b hab

theorem claim_C1_witness : dget statePaired.partners 2 = some 1 :=
  claim_C1_partner_map_symmetry statePaired reachable_statePaired 1 2 (by decide)

/-- C2: in every reachable state, no user identifier is simultaneously in
the waiting queue and a key of the partner map. -/
theorem claim_C2_queue_partner_disjoint (s : BotState) (h : Reachable s)
    (u : Nat) (hu : u ∈ s.waiting) : dget s.partners u = none :=
  (reachable_inv h).2.1 u hu

theorem claim_C2_witness : dget stateWaiting.partners 1 = none :=
  claim_C2_queue_partner_disjoint stateWaiting reachable_stateWaiting 1 (by decide)

/-- C3: from the empty initial state, `requestPairing A` followed by
`requestPairing B` with `A ≠ B` answers "waiting" to `A`, pairs `A` with `B`
(both partner-map entries and both last-partner entries are set, and the
`paired` result signals "Partner found" to both parties), and leaves the
waiting queue empty. -/
theorem claim_C3_fifo_pairing (A B : Nat) (hAB : A ≠ B) :
    (chat_cmd initState A true).2 = ChatResult.waitingReply ∧
    (chat_cmd (chat_cmd initState A true).1 B true).2 = ChatResult.paired A ∧
    dget (chat_cmd (chat_cmd initState A true).1 B true).1.partners A = some B ∧
    dget (chat_cmd (chat_cmd initState A true).1 B true).1.partners B = some A ∧
    dget (chat_cmd (chat_cmd initState A true).1 B true).1.last_partner A = some B ∧
    dget (chat_cmd (chat_cmd initState A true).1 B true).1.last_partner B = some A ∧
    (chat_cmd (chat_cmd initState A true).1 B true).1.waiting = [] := by
  have hBA : B ≠ A := fun he => hAB he.symm
  have h1 : chat_cmd initState A true =
      ({ waiting := [A], partners := [], last_partner := [] },
       ChatResult.waitingReply) := by
    unfold chat_cmd initState
    simp [dget]
  have h2 : chat_cmd (chat_cmd initState A true).1 B true =
      ({ waiting := [],
         partners := dset (dset [] B A) A B,
         last_partner := dset (dset [] B A) A B },
       ChatResult.paired A) := by
    rw [h1]
    unfold chat_cmd
    simp [dget, hBA, hAB]
  refine ⟨by rw [h1], by rw [h2], ?_, ?_, ?_, ?_, by rw [h2]⟩ <;>
    rw [h2] <;> simp [dget_dset, hAB, hBA]

theorem claim_C3_witness :
    (chat_cmd initState 1 true).2 = ChatResult.waitingReply ∧
    (chat_cmd (chat_cmd initState 1 true).1 2 true).2 = ChatResult.paired 1 ∧
    dget (chat_cmd (chat_cmd initState 1 true).1 2 true).1.partners 1 = some 2 ∧
    dget (chat_cmd (chat_cmd initState 1 true).1 2 true).1.partners 2 = some 1 ∧
    dget (chat_cmd (chat_cmd initState 1 true).1 2 true).1.last_partner 1 = some 2 ∧
    dget (chat_cmd (chat_cmd initState 1 true).1 2 true).1.last_partner 2 = some 1 ∧
    (chat_cmd (chat_cmd initState 1 true).1 2 true).1.waiting = [] :=
  claim_C3_fifo_pairing 1 2 (by decide)

/-- C4: `requestPairing u` fails with `AlreadyPaired` when `u` is a key of
the partner map, and with `AlreadyWaiting` when `u` is not such a key but is
already waiting; in both cases the whole state (queue and both maps) is
returned unchanged, the error being only the user-visible reply. -/
theorem claim_C4_request_pairing_errors (s : BotState) (u : Nat) :
    ((dget s.partners u).isSome →
      chat_cmd s u true = (s, ChatResult.alreadyPaired)) ∧
    (dget s.partners u = none → u ∈ s.waiting →
      chat_cmd s u true = (s, ChatResult.alreadyWaiting)) := by
  constructor
  · intro h
    unfold chat_cmd
    simp [h]
  · intro h hw
    unfold chat_cmd
    simp [h, hw]

theorem claim_C4_witness :
    chat_cmd statePaired 1 true = (statePaired, ChatResult.alreadyPaired) ∧
    chat_cmd stateWaiting 1 true = (stateWaiting, ChatResult.alreadyWaiting) :=
  ⟨(claim_C4_request_pairing_errors statePaired 1).1 (by decide),
   (claim_C4_request_pairing_errors stateWaiting 1).2 (by decide) (by decide)⟩

/-- C5: relay from a sender with an active partner issues exactly one
outbound send to the partner, of the kind determined by the content unit
(`relayOutbound`), never replies to the sender, and: on a successful send
appends exactly one ForwardRecord whose `fwd_msg_id` is the
platform-assigned id of the outbound message, while on a failed send the
database is unchanged (no record, no error to the sender). -/
theorem claim_C5_relay_paired (s : BotState) (db : DB) (u partner orig : Nat)
    (content : Content) (sendResult : Option Nat)
    (hp : dget s.partners u = some partner) (h0 : partner ≠ 0) :
    (forward_messages s db u orig content sendResult).2.1 =
      [relayOutbound partner content] ∧
    (forward_messages s db u orig content sendResult).2.2 = none ∧
    (∀ fwdId, sendResult = some fwdId →
      (forward_messages s db u orig content sendResult).1.forwards =
        db.forwards ++
          [{ id := db.next_forward_id, user_id := u, partner_id := partner,
             orig_msg_id := orig, fwd_msg_id := fwdId,
             content_type := contentKind content }]) ∧
    (sendResult = none →
      (forward_messages s db u orig content sendResult).1 = db) := by
  unfold forward_messages
  rw [hp]
  simp only [if_neg h0]
  cases sendResult with
  | none => simp
  | some fwdId => simp [db_add_forward]

theorem claim_C5_witness :
    (forward_messages statePaired emptyDB 1 10 (Content.text "hi") (some 99)).2.1 =
      [relayOutbound 2 (Content.text "hi")] ∧
    (forward_messages statePaired emptyDB 1 10 (Content.text "hi") (some 99)).1.forwards =
      emptyDB.forwards ++
        [{ id := emptyDB.next_forward_id, user_id := 1, partner_id := 2,
           orig_msg_id := 10, fwd_msg_id := 99,
           content_type := contentKind (Content.text "hi") }] ∧
    (forward_messages statePaired emptyDB 1 10 (Content.text "hi") none).1 = emptyDB :=
  ⟨(claim_C5_relay_paired statePaired emptyDB 1 2 10 (Content.text "hi")
      (some 99) (by decide) (by decide)).1,
   (claim_C5_relay_paired statePaired emptyDB 1 2 10 (Content.text "hi")
      (some 99) (by decide) (by decide)).2.2.1 99 rfl,
   (claim_C5_relay_paired statePaired emptyDB 1 2 10 (Content.text "hi")
      none (by decide) (by decide)).2.2.2 rfl⟩

/-- C6: relay from a sender who is not a key of the partner map is a silent
no-op: no outbound call, no ForwardRecord, no reply, database unchanged. -/
theorem claim_C6_relay_unpaired (s : BotState) (db : DB) (u orig : Nat)
    (content : Content) (sendResult : Option Nat)
    (h : dget s.partners u = none) :
    forward_messages s db u orig content sendResult = (db, [], none) := by
  unfold forward_messages
  rw [h]

theorem claim_C6_witness :
    forward_messages initState emptyDB 1 10 Content.other (some 99) =
      (emptyDB, [], none) :=
  claim_C6_relay_unpaired initState emptyDB 1 10 Content.other (some 99) (by decide)

/-- C9: `leave` on a user who is neither waiting nor paired replies "not in
chat or queue", changes nothing, and a second consecutive call behaves
identically. -/
theorem claim_C9_leave_idempotent (s : BotState) (u : Nat)
    (hw : u ∉ s.waiting) (hp : dget s.partners u = none) :
    exit_cmd s u = (s, ExitResult.notInChatOrQueue) ∧
    exit_cmd (exit_cmd s u).1 u = (s, ExitResult.notInChatOrQueue) := by
  have h1 : exit_cmd s u = (s, ExitResult.notInChatOrQueue) := by
    unfold exit_cmd
    simp [hw, hp]
  refine ⟨h1, ?_⟩
  rw [h1]
  exact h1

theorem claim_C9_witness :
    exit_cmd initState 5 = (initState, ExitResult.notInChatOrQueue) ∧
    exit_cmd (exit_cmd initState 5).1 5 = (initState, ExitResult.notInChatOrQueue) :=
  claim_C9_leave_idempotent initState 5 (by decide) (by decide)

/-- C10: in every reachable state the waiting queue has no duplicates, and
the conditions under which `chat_cmd` pops the queue head for user `u`
(`u` not paired, `u` not waiting, queue non-empty) never yield `u` itself as
the popped head, so the defensive self-pairing guard branch is unreachable
in serial execution. -/
theorem claim_C10_nodup_no_self_pop (s : BotState) (h : Reachable s) (u : Nat)
    (hnp : dget s.partners u = none) (hnw : u ∉ s.waiting) :
    s.waiting.Nodup ∧ s.waiting.head? ≠ some u := by
  refine ⟨(reachable_inv h).2.2, ?_⟩
  intro he
  apply hnw
  cases hw : s.waiting with
  | nil => rw [hw] at he; exact Option.noConfusion he
  | cons a l =>
    rw [hw] at he
    simp only [List.head?_cons, Option.some.injEq] at he
    rw [← he]
    exact List.mem_cons_self _ _

theorem claim_C10_witness :
    stateWaiting.waiting.Nodup ∧ stateWaiting.waiting.head? ≠ some 5 :=
  claim_C10_nodup_no_self_pop stateWaiting reachable_stateWaiting 5
    (by decide) (by decide)

theorem getLast?_id_max {l : List ForwardRecord} {a : ForwardRecord}
    (hp : l.Pairwise (fun r r' => r.id < r'.id)) (hl : l.getLast? = some a) :
    a ∈ l ∧ ∀ x ∈ l, x.id ≤ a.id := by
  induction l with
  | nil => exact Option.noConfusion hl
  | cons hd tl ih =>
    cases tl with
    | nil =>
      obtain rfl : hd = a := by simpa using hl
      exact ⟨List.mem_cons_self _ _, by simp⟩
    | cons hd2 tl2 =>
      have hl' : (hd2 :: tl2).getLast? = some a := by
        rw [List.getLast?_cons_cons] at hl
        exact hl
      obtain ⟨hmem, hmax⟩ := ih hp.of_cons hl'
      refine ⟨List.mem_cons_of_mem _ hmem, ?_⟩
      intro x hx
      rcases List.mem_cons.mp hx with rfl | hx
      · exact Nat.le_of_lt ((List.pairwise_cons.mp hp).1 a hmem)
      · exact hmax x hx

/-- C7: `retractLast` on a user with no ForwardRecord replies "nothing to
retract" with no external call and no change; on a user with records it
selects the most recent one (the one `db_get_last_forward` returns, which
under the increasing-id layout of the `forwards` table is the matching
record of maximal id), issues exactly one external delete for the forwarded
message, removes that record whether or not the delete succeeds, and tells
the caller success or "could not delete". -/
theorem claim_C7_retract_last (db : DB) (u : Nat) (ok : Bool) :
    (db_get_last_forward db u = none →
      delete_last_cmd db u ok = (db, [], "No forwarded messages found to delete.")) ∧
    (∀ row, db_get_last_forward db u = some row →
      delete_last_cmd db u ok =
        (db_delete_forward_record db row.id,
         [Outbound.deleteMessage row.partner_id row.fwd_msg_id],
         if ok then "✅ Your last forwarded message has been deleted."
         else "Could not delete the forwarded message (maybe already deleted).")) ∧
    (db.forwards.Pairwise (fun r r' => r.id < r'.id) →
      ∀ row, db_get_last_forward db u = some row →
        row ∈ db.forwards ∧ row.user_id = u ∧
        ∀ r, r ∈ db.forwards → r.user_id = u → r.id ≤ row.id) := by
  refine ⟨?_, ?_, ?_⟩
  · intro h
    unfold delete_last_cmd
    rw [h]
  · intro row h
    unfold delete_last_cmd
    rw [h]
    cases ok <;> simp
  · intro hasc row h
    have hpf : (db.forwards.filter (fun r => r.user_id == u)).Pairwise
        (fun r r' => r.id < r'.id) := hasc.filter _
    obtain ⟨hmem, hmax⟩ := getLast?_id_max hpf h
    have hmem' := List.mem_filter.mp hmem
    refine ⟨hmem'.1, by simpa using hmem'.2, ?_⟩
    intro r hr hru
    exact hmax r (List.mem_filter.mpr ⟨hr, by simp [hru]⟩)

/-- A database holding a single forwarded-message record, for the witness. -/
def dbOne : DB := db_add_forward emptyDB 1 2 10 99 "text"

/-- The single record of `dbOne`. -/
def recOne : ForwardRecord :=
  { id := 1, user_id := 1, partner_id := 2, orig_msg_id := 10,
    fwd_msg_id := 99, content_type := "text" }

theorem claim_C7_witness :
    delete_last_cmd emptyDB 1 true = (emptyDB, [], "No forwarded messages found to delete.") ∧
    delete_last_cmd dbOne 1 false =
      (db_delete_forward_record dbOne recOne.id,
       [Outbound.deleteMessage recOne.partner_id recOne.fwd_msg_id],
       "Could not delete the forwarded message (maybe already deleted).") ∧
    recOne ∈ dbOne.forwards ∧ recOne.user_id = 1 :=
  ⟨(claim_C7_retract_last emptyDB 1 true).1 rfl,
   (claim_C7_retract_last dbOne 1 false).2.1 recOne rfl,
   ((claim_C7_retract_last dbOne 1 false).2.2 (by simp [dbOne, db_add_forward, emptyDB])
      recOne rfl).1,
   ((claim_C7_retract_last dbOne 1 false).2.2 (by simp [dbOne, db_add_forward, emptyDB])
      recOne rfl).2.1⟩

/-- C8: for every prior database state, `setProfile(u, age := 30)` followed
by `getProfile(u)` yields age 30 while gender and the premium flag read back
exactly as they did before the call (including the no-row case, where both
calls see the defaults gender = none, premium = false). -/
theorem claim_C8_profile_roundtrip (db : DB) (u : Nat) (ts : String) :
    (db_get_profile (db_set_profile db u (some 30) none none ts) u).age = some 30 ∧
    (db_get_profile (db_set_profile db u (some 30) none none ts) u).gender =
      (db_get_profile db u).gender ∧
    (db_get_profile (db_set_profile db u (some 30) none none ts) u).is_premium =
      (db_get_profile db u).is_premium := by
  unfold db_set_profile db_get_profile
  cases h : dget db.profiles u with
  | some row => simp [h, dget_dset]
  | none => simp [h, dget_dset]
